import Mathlib

set_option linter.unusedVariables false

/-!
Verification of the rule-based prompt-rewriting engine of the
`ai-validation-mcp-server` repository.

The repository contains two implementations of the engine:
* `src/ai_validation_mcp.py` — the MCP tool server (functions
  `analyze_prompt_structure`, `generate_few_shot_examples`,
  `determine_expert_role`, `apply_model_specific_rules`,
  `generate_recommendations`, `calculate_optimization_score`,
  `apply_engineering_rules`, and the tool dispatcher `handle_call_tool`);
* `src/mcp_server.py` — the Flask HTTP server, with its own copies of the
  same functions (embedded below inside namespace `Http`).

Embedding conventions:
* Python strings are Lean `String`s; all prompts in scope are ASCII, so
  `Char.toLower` matches Python `str.lower`, and `Char.isWhitespace`
  matches the whitespace classes Python `str.split()` splits on.
* Python `float` scores are embedded as `ℚ`; every constant in the source
  (0.3, 0.2, 0.1, 0.04, 0.7, 1.0, …) is an exact decimal, and the spec
  states the score model over exact decimals.
* Python `s.split()` (split on whitespace runs, dropping empty tokens),
  `x in s` (substring containment), `s.count(c)` and `min`/`max` are
  reimplemented below as executable Lean functions on `String.data`.
* Fallible lookups that return `None` in `src/mcp_server.py` are embedded
  as `Option String`; the sibling lookups in `src/ai_validation_mcp.py`
  return `""` and are embedded as `String` with an emptiness test, exactly
  as the source tests Python truthiness.
-/

/-- Python `min` on rationals: `min(a, b)` returns `a` on ties. -/
def pymin (a b : ℚ) : ℚ := if a ≤ b then a else b

/-- Python `max` on naturals: `max(a, b)` returns `a` on ties (value-equal either way). -/
def pymaxNat (a b : ℕ) : ℕ := if b ≤ a then a else b

/-- Accumulating splitter behind `pyWords`: `cur` is the reversed current word. -/
def wordsAux (cur : List Char) : List Char → List (List Char)
  | [] => if cur.isEmpty then [] else [cur.reverse]
  | c :: cs =>
    if c.isWhitespace then
      if cur.isEmpty then wordsAux [] cs else cur.reverse :: wordsAux [] cs
    else wordsAux (c :: cur) cs

/-- Python `str.split()` with no arguments: split on whitespace runs, dropping
empty tokens.  `pyWords "" = []` and `pyWords "  " = []`, as in Python. -/
def pyWords (s : String) : List String :=
  (wordsAux [] s.data).map fun w => String.mk w

/-- Python `str.lower()` (ASCII range, which covers every keyword the source tests). -/
def lowerStr (s : String) : String := String.mk (s.data.map Char.toLower)

/-- Check whether the first list is a prefix of the second. -/
def isPrefixChars : List Char → List Char → Bool
  | [], _ => true
  | _ :: _, [] => false
  | a :: as, b :: bs => a == b && isPrefixChars as bs

/-- Check whether `pat` occurs as a contiguous sublist. -/
def containsChars (pat : List Char) : List Char → Bool
  | [] => pat.isEmpty
  | c :: cs => isPrefixChars pat (c :: cs) || containsChars pat cs

/-- Python `pat in s` substring containment. -/
def containsSub (s pat : String) : Bool := containsChars pat.data s.data

/-- Python `s.count(c)` for a single character. -/
def countChar (s : String) (c : Char) : Nat :=
  (s.data.filter fun x => x == c).length

/-- Analysis record produced by `analyze_prompt_structure`
(`src/ai_validation_mcp.py` lines 31-47; byte-identical copy in
`src/mcp_server.py` lines 185-201). -/
structure Analysis where
  length : Nat
  word_count : Nat
  has_clear_task : Bool
  has_context : Bool
  has_examples : Bool
  has_constraints : Bool
  question_count : Nat
  needs_reasoning : Bool
  needs_examples : Bool
  needs_expertise : Bool
  needs_structure : Bool
  clarity_score : ℚ
deriving DecidableEq

/-- Keyword list for `has_clear_task` in `analyze_prompt_structure`. -/
def clearTaskWords : List String := ["analyze", "create", "explain", "generate", "write", "help"]

/-- Keyword list for `has_constraints` in `analyze_prompt_structure`. -/
def constraintWords : List String := ["must", "should", "requirement", "constraint", "limit"]

/-- Keyword list for `needs_reasoning` in `analyze_prompt_structure`. -/
def reasoningWords : List String := ["why", "how", "explain", "analyze", "compare"]

/-- Keyword list for `needs_expertise` in `analyze_prompt_structure`. -/
def expertiseWords : List String := ["code", "technical", "programming", "engineering", "scientific", "medical", "legal"]

/-- Embedding of `analyze_prompt_structure` (`src/ai_validation_mcp.py` lines 31-47). -/
def analyze_prompt_structure (prompt : String) : Analysis :=
  let lower := lowerStr prompt
  let words := pyWords prompt
  let wc := words.length
  let q := countChar prompt '?'
  { length := prompt.data.length
    word_count := wc
    has_clear_task := clearTaskWords.any fun w => containsSub lower w
    has_context := decide (wc > 10)
    has_examples := containsSub lower "example" || containsSub lower "for instance"
    has_constraints := constraintWords.any fun w => containsSub lower w
    question_count := q
    needs_reasoning := reasoningWords.any fun w => containsSub lower w
    needs_examples := decide (q > 0) && decide (wc < 20)
    needs_expertise := expertiseWords.any fun w => containsSub lower w
    needs_structure := decide (wc > 30) || decide (q > 2)
    clarity_score :=
      pymin 1 (((words.filter fun w => decide (w.data.length > 3)).length : ℚ) /
        ((pymaxNat 10 wc : ℕ) : ℚ)) }

/-- Few-shot examples emitted for code/programming prompts
(`src/ai_validation_mcp.py` lines 52-59, byte-identical in `src/mcp_server.py`
lines 207-214; note the trailing blank after "Example 1:" in the source). -/
def codeExamples : String :=
  "Example 1: \nQ: \"How do I implement a binary search?\"\nA: \"Here\x27s a clean Python implementation with explanation...\"\n\nExample 2:\nQ: \"Optimize this SQL query\"\nA: \"I\x27ll analyze your query and provide 3 specific optimizations...\"\n"

/-- Few-shot examples emitted for write/content prompts
(`src/ai_validation_mcp.py` lines 61-68; byte-identical in `src/mcp_server.py`). -/
def writingExamples : String :=
  "Example 1:\nQ: \"Write a product description\"\nA: \"I\x27ll create a compelling description focusing on benefits, features, and emotional appeal...\"\n\nExample 2:\nQ: \"Improve this email\"\nA: \"Here\x27s the enhanced version with better structure and persuasive language...\"\n"

/-- Embedding of `generate_few_shot_examples` (`src/ai_validation_mcp.py` lines 49-69);
returns `""` when no domain keyword matches. -/
def generate_few_shot_examples (prompt : String) : String :=
  if containsSub (lowerStr prompt) "code" || containsSub (lowerStr prompt) "programming" then
    codeExamples
  else if containsSub (lowerStr prompt) "write" || containsSub (lowerStr prompt) "content" then
    writingExamples
  else ""

/-- Embedding of `determine_expert_role` (`src/ai_validation_mcp.py` lines 71-86);
returns `""` when no role-domain keyword matches. -/
def determine_expert_role (prompt : String) : String :=
  let prompt_lower := lowerStr prompt
  if ["code", "programming", "software", "debug"].any (fun w => containsSub prompt_lower w) then
    "a senior software engineer with 10+ years of experience in multiple programming languages and best practices"
  else if ["write", "content", "marketing", "copy"].any (fun w => containsSub prompt_lower w) then
    "an expert copywriter and content strategist with deep understanding of persuasive writing"
  else if ["analyze", "data", "research"].any (fun w => containsSub prompt_lower w) then
    "a data analyst and research expert skilled in systematic analysis and insight generation"
  else if ["design", "ui", "ux", "interface"].any (fun w => containsSub prompt_lower w) then
    "a senior UX/UI designer with expertise in user-centered design and interface optimization"
  else if ["business", "strategy", "plan"].any (fun w => containsSub prompt_lower w) then
    "a business strategy consultant with extensive experience in strategic planning and execution"
  else ""

/-- Embedding of `apply_model_specific_rules` (`src/ai_validation_mcp.py` lines 88-99);
the `prompt` argument is unused in the source body as well. -/
def apply_model_specific_rules (prompt : String) (model : String) : String :=
  let model_lower := lowerStr model
  if containsSub model_lower "gpt" then
    "Note: This prompt is optimized for GPT models. Consider using structured formatting and clear role definitions for best results."
  else if containsSub model_lower "claude" then
    "Note: This prompt is optimized for Claude. Leverage its strength in detailed analysis and nuanced reasoning."
  else if containsSub model_lower "gemini" then
    "Note: This prompt is optimized for Gemini. Take advantage of its multimodal capabilities and factual accuracy."
  else ""

/-- Embedding of `generate_recommendations` (`src/ai_validation_mcp.py` lines 101-120):
conditional appends, in source order.  The `original_prompt` argument is unused in
the source body as well. -/
def generate_recommendations (analysis : Analysis) (original_prompt : String)
    (rules : List String) : List String :=
  (if analysis.clarity_score < 0.5 then
    ["Consider adding more specific details and context to improve clarity"] else []) ++
  (if !analysis.has_examples && analysis.needs_examples then
    ["Add concrete examples to illustrate your requirements"] else []) ++
  (if !analysis.has_constraints && decide (analysis.word_count > 20) then
    ["Define clear constraints or requirements for better results"] else []) ++
  (if analysis.needs_structure && !(rules.contains "structured_output") then
    ["Enable \x27structured_output\x27 rule for better organization"] else []) ++
  (if analysis.needs_reasoning && !(rules.contains "chain_of_thought") then
    ["Enable \x27chain_of_thought\x27 rule for step-by-step reasoning"] else [])

/-- Embedding of `calculate_optimization_score` (`src/ai_validation_mcp.py` lines 122-140,
byte-identical copy in `src/mcp_server.py` lines 281-299): base 0.3, structure bonuses,
rule bonus capped at 0.2, final cap at 1.0. -/
def calculate_optimization_score (analysis : Analysis) (rules_applied : List String) : ℚ :=
  let base_score : ℚ := 0.3
  let base_score := if analysis.has_clear_task then base_score + 0.2 else base_score
  let base_score := if analysis.has_context then base_score + 0.1 else base_score
  let base_score := if analysis.has_examples then base_score + 0.1 else base_score
  let base_score := if analysis.has_constraints then base_score + 0.1 else base_score
  let rule_bonus := pymin 0.2 ((rules_applied.length : ℚ) * 0.04)
  pymin 1 (base_score + rule_bonus)

/-- Accumulating state of the rule pipeline inside `apply_engineering_rules`:
the engineered text so far and the `rules_applied` list so far. -/
structure EngState where
  text : String
  applied : List String
deriving DecidableEq

/-- Expert-system persona preamble (`src/ai_validation_mcp.py` lines 166-180,
byte-identical in `src/mcp_server.py` lines 64-78). -/
def expertPrompt : String :=
  "You are a world-class prompt engineering expert with extensive knowledge in AI systems, language models, and optimization techniques. Your role is to help users create, analyze, and optimize prompts for maximum effectiveness across different AI models.\n\nYour Core Identity:\n- Act as a seasoned practitioner with deep understanding of LLM behavior and capabilities\n- Communicate complex strategies with clarity and precision\n- Approach optimization systematically and methodically\n- Break down advanced techniques into actionable steps\n\nYour communication style should be:\n- Technical yet accessible, using industry terminology appropriately\n- Evidence-based with references to proven techniques and methodologies\n- Focused on iterative refinement and optimization\n- Rich with concrete examples from various AI models and use cases\n\n"

/-- Chain-of-thought instruction block (`src/ai_validation_mcp.py` line 186,
byte-identical in `src/mcp_server.py` line 85). -/
def cotInstruction : String :=
  "\n\nThink through this step-by-step:\n1. First, analyze the core challenge or opportunity\n2. Consider which prompt engineering methods apply and why\n3. Structure your response with clear reasoning\n4. Provide concrete, testable examples\n5. Explain the rationale behind your approach"

/-- Structured-output template of `src/ai_validation_mcp.py` lines 206-224:
it begins with a blank line (two newlines). -/
def structureTemplate : String :=
  "\n\nStructure your response as follows:\n\n🔍 Quick Assessment (1-2 sentences):\nIdentify the core challenge or opportunity\n\n⚡ Technique Recommendation:\nExplain which prompt engineering methods apply and why\n\n💡 Improved Prompt Example:\nProvide a concrete, testable prompt the user can copy immediately\n\n🧠 Rationale:\nExplain the reasoning behind your approach and technique choices\n\n🔄 Variations & Testing:\nSuggest alternative approaches and testing strategies\n"

/-- Structured-output template of `src/mcp_server.py` lines 108-125: identical to
`structureTemplate` except that it begins with a single newline. -/
def httpStructureTemplate : String :=
  "\nStructure your response as follows:\n\n🔍 Quick Assessment (1-2 sentences):\nIdentify the core challenge or opportunity\n\n⚡ Technique Recommendation:\nExplain which prompt engineering methods apply and why\n\n💡 Improved Prompt Example:\nProvide a concrete, testable prompt the user can copy immediately\n\n🧠 Rationale:\nExplain the reasoning behind your approach and technique choices\n\n🔄 Variations & Testing:\nSuggest alternative approaches and testing strategies\n"

/-- Clarity/precision directive (`src/ai_validation_mcp.py` line 237,
byte-identical in `src/mcp_server.py` line 140). -/
def clarityInstruction : String :=
  "\n\nIMPORTANT: Be specific, actionable, and include concrete examples. Avoid vague language and provide step-by-step guidance where applicable."

/-- Testing/validation guidance block (`src/ai_validation_mcp.py` lines 243-251,
byte-identical in `src/mcp_server.py` lines 147-155). -/
def testingGuidance : String :=
  "\n\nTesting Recommendations:\n- A/B test different prompt variations\n- Measure response quality against specific success metrics\n- Test with different temperature settings\n- Validate across multiple model runs for consistency\n- Document what works best for similar use cases\n"

/-- Rule 1 of `apply_engineering_rules` (`src/ai_validation_mcp.py` lines 164-182):
expert-system preamble, gated on explicit request or `auto_optimize` (unconditional). -/
def expertStep (rules : List String) (s : EngState) : EngState :=
  if rules.contains "expert_system" || rules.contains "auto_optimize" then
    { text := expertPrompt ++ "\n\nUser Request:\n" ++ s.text
      applied := s.applied ++ ["expert_system"] }
  else s

/-- Rule 2 of `apply_engineering_rules` (`src/ai_validation_mcp.py` lines 184-188):
chain-of-thought, gated on explicit request or (`needs_reasoning` and `auto_optimize`). -/
def cotStep (rules : List String) (analysis : Analysis) (s : EngState) : EngState :=
  if rules.contains "chain_of_thought" ||
      (analysis.needs_reasoning && rules.contains "auto_optimize") then
    { text := s.text ++ cotInstruction, applied := s.applied ++ ["chain_of_thought"] }
  else s

/-- Rule 3 of `apply_engineering_rules` (`src/ai_validation_mcp.py` lines 190-195):
few-shot examples; inside the gate the lookup may yield `""`, in which case the
step is a no-op (Python truthiness test `if few_shot_examples:`). -/
def fewShotStep (raw_prompt : String) (rules : List String) (analysis : Analysis)
    (s : EngState) : EngState :=
  if rules.contains "few_shot" ||
      (analysis.needs_examples && rules.contains "auto_optimize") then
    let few_shot_examples := generate_few_shot_examples raw_prompt
    if few_shot_examples ≠ "" then
      { text := s.text ++ "\n\nHere are some examples of excellent responses:\n\n" ++
          few_shot_examples
        applied := s.applied ++ ["few_shot"] }
    else s
  else s

/-- Rule 4 of `apply_engineering_rules` (`src/ai_validation_mcp.py` lines 197-202):
role-play prefix; inside the gate the role lookup may yield `""`, in which case the
step is a no-op. -/
def rolePlayStep (raw_prompt : String) (rules : List String) (analysis : Analysis)
    (s : EngState) : EngState :=
  if rules.contains "role_play" ||
      (analysis.needs_expertise && rules.contains "auto_optimize") then
    let role_context := determine_expert_role raw_prompt
    if role_context ≠ "" then
      { text := "You are " ++ role_context ++ ".\n\n" ++ s.text
        applied := s.applied ++ ["role_play"] }
    else s
  else s

/-- Rule 5 of `apply_engineering_rules` (`src/ai_validation_mcp.py` lines 204-226):
structured-output template, gated on explicit request or (`needs_structure` and
`auto_optimize`). -/
def structuredStep (rules : List String) (analysis : Analysis) (s : EngState) : EngState :=
  if rules.contains "structured_output" ||
      (analysis.needs_structure && rules.contains "auto_optimize") then
    { text := s.text ++ structureTemplate, applied := s.applied ++ ["structured_output"] }
  else s

/-- Rule 6 of `apply_engineering_rules` (`src/ai_validation_mcp.py` lines 228-233):
model-specific note, explicit request only; no-op when the model lookup yields `""`. -/
def modelOptimizeStep (target_model : String) (rules : List String) (s : EngState) : EngState :=
  if rules.contains "model_optimize" then
    let model_optimization := apply_model_specific_rules s.text target_model
    if model_optimization ≠ "" then
      { text := s.text ++ "\n\n" ++ model_optimization
        applied := s.applied ++ ["model_optimize"] }
    else s
  else s

/-- Rule 7 of `apply_engineering_rules` (`src/ai_validation_mcp.py` lines 235-239):
clarity directive, gated on explicit request or (`clarity_score < 0.7` and
`auto_optimize`). -/
def clarityStep (rules : List String) (analysis : Analysis) (s : EngState) : EngState :=
  if rules.contains "enhance_clarity" ||
      (decide (analysis.clarity_score < 0.7) && rules.contains "auto_optimize") then
    { text := s.text ++ clarityInstruction, applied := s.applied ++ ["enhance_clarity"] }
  else s

/-- Rule 8 of `apply_engineering_rules` (`src/ai_validation_mcp.py` lines 241-253):
testing guidance, explicit request only. -/
def testingStep (rules : List String) (s : EngState) : EngState :=
  if rules.contains "add_testing" then
    { text := s.text ++ testingGuidance, applied := s.applied ++ ["add_testing"] }
  else s

/-- Output record of `apply_engineering_rules` (`src/ai_validation_mcp.py` lines 261-269). -/
structure EngineeringResult where
  engineered_prompt : String
  original_prompt : String
  analysis : Analysis
  rules_applied : List String
  recommendations : List String
  optimization_score : ℚ
  target_model : String
deriving DecidableEq

/-- Embedding of `apply_engineering_rules` (`src/ai_validation_mcp.py` lines 142-269):
the eight transformations in source order, then recommendations and score.  The
Python default arguments (`rules=None → ["auto_optimize"]`, `target_model="general"`)
are supplied by the callers below, as in the source call sites. -/
def apply_engineering_rules (raw_prompt : String) (rules : List String)
    (target_model : String) : EngineeringResult :=
  let analysis := analyze_prompt_structure raw_prompt
  let s0 : EngState := { text := raw_prompt, applied := [] }
  let s1 := expertStep rules s0
  let s2 := cotStep rules analysis s1
  let s3 := fewShotStep raw_prompt rules analysis s2
  let s4 := rolePlayStep raw_prompt rules analysis s3
  let s5 := structuredStep rules analysis s4
  let s6 := modelOptimizeStep target_model rules s5
  let s7 := clarityStep rules analysis s6
  let s8 := testingStep rules s7
  { engineered_prompt := s8.text
    original_prompt := raw_prompt
    analysis := analysis
    rules_applied := s8.applied
    recommendations := generate_recommendations analysis raw_prompt rules
    optimization_score := calculate_optimization_score analysis s8.applied
    target_model := target_model }

/-- Argument dictionary of a tool call (`handle_call_tool` in
`src/ai_validation_mcp.py` lines 339-492).  Each field is `none` when the key is
absent from the JSON dictionary; `.get` defaults from the source are applied at
the use sites. -/
structure ToolArgs where
  prompt : Option String
  rules : Option (List String)
  model : Option String
  focus_area : Option String
deriving DecidableEq

/-- Outcome of a tool call.  The source renders each outcome into a markdown
report string; the rendering is a pure function of the carried data, so the
embedding keeps the data and abstracts the formatting.  `errorText` carries the
exact error string the source returns; the `validated` constructor carries the
engine result, so an error outcome contains no engine-computed data at all. -/
inductive ToolOutcome where
  | errorText (msg : String)
  | validated (result : EngineeringResult)
  | analyzed (analysis : Analysis)
  | suggestions (prompt : String) (focus_area : String)
deriving DecidableEq

/-- Tool arguments with every key absent (Python `arguments = {}` at
`src/ai_validation_mcp.py` lines 344-345). -/
def emptyToolArgs : ToolArgs := { prompt := none, rules := none, model := none, focus_area := none }

/-- Embedding of `handle_call_tool` (`src/ai_validation_mcp.py` lines 339-492):
dictionary-lookup defaults, the empty-prompt short-circuit of each tool, the
engine call of `validate_prompt`, and the unknown-tool error. -/
def handle_call_tool (name : String) (arguments : Option ToolArgs) : ToolOutcome :=
  let args := arguments.getD emptyToolArgs
  if name = "validate_prompt" then
    let prompt := args.prompt.getD ""
    let rules := args.rules.getD ["auto_optimize"]
    let model := args.model.getD "general"
    if prompt = "" then ToolOutcome.errorText "Error: No prompt provided"
    else ToolOutcome.validated (apply_engineering_rules prompt rules model)
  else if name = "analyze_prompt_quality" then
    let prompt := args.prompt.getD ""
    if prompt = "" then ToolOutcome.errorText "Error: No prompt provided"
    else ToolOutcome.analyzed (analyze_prompt_structure prompt)
  else if name = "get_optimization_suggestions" then
    let prompt := args.prompt.getD ""
    let focus_area := args.focus_area.getD "all"
    if prompt = "" then ToolOutcome.errorText "Error: No prompt provided"
    else ToolOutcome.suggestions prompt focus_area
  else ToolOutcome.errorText ("Error: Unknown tool \x27" ++ name ++ "\x27")

/-- Embedding of `analyze_prompt_structure` of `src/mcp_server.py` (lines 185-201).
The source body is byte-identical to the copy in `src/ai_validation_mcp.py`, so
the embedding reuses the same Lean function. -/
def http_analyze_prompt_structure : String → Analysis := analyze_prompt_structure

/-- Embedding of `generate_few_shot_examples` of `src/mcp_server.py` (lines 204-224):
identical to the copy in `src/ai_validation_mcp.py` except that the no-match
branch returns `None` instead of `""`. -/
def http_generate_few_shot_examples (prompt : String) : Option String :=
  if containsSub (lowerStr prompt) "code" || containsSub (lowerStr prompt) "programming" then
    some codeExamples
  else if containsSub (lowerStr prompt) "write" || containsSub (lowerStr prompt) "content" then
    some writingExamples
  else none

/-- Embedding of `determine_expert_role` of `src/mcp_server.py` (lines 227-242):
identical to the copy in `src/ai_validation_mcp.py` except that the no-match
branch returns `None` instead of `""`. -/
def http_determine_expert_role (prompt : String) : Option String :=
  let prompt_lower := lowerStr prompt
  if ["code", "programming", "software", "debug"].any (fun w => containsSub prompt_lower w) then
    some "a senior software engineer with 10+ years of experience in multiple programming languages and best practices"
  else if ["write", "content", "marketing", "copy"].any (fun w => containsSub prompt_lower w) then
    some "an expert copywriter and content strategist with deep understanding of persuasive writing"
  else if ["analyze", "data", "research"].any (fun w => containsSub prompt_lower w) then
    some "a data analyst and research expert skilled in systematic analysis and insight generation"
  else if ["design", "ui", "ux", "interface"].any (fun w => containsSub prompt_lower w) then
    some "a senior UX/UI designer with expertise in user-centered design and interface optimization"
  else if ["business", "strategy", "plan"].any (fun w => containsSub prompt_lower w) then
    some "a business strategy consultant with extensive experience in strategic planning and execution"
  else none

/-- Embedding of `apply_model_specific_rules` of `src/mcp_server.py` (lines 245-256):
identical to the copy in `src/ai_validation_mcp.py` except that the no-match
branch returns `None` instead of `""`. -/
def http_apply_model_specific_rules (prompt : String) (model : String) : Option String :=
  let model_lower := lowerStr model
  if containsSub model_lower "gpt" then
    some "Note: This prompt is optimized for GPT models. Consider using structured formatting and clear role definitions for best results."
  else if containsSub model_lower "claude" then
    some "Note: This prompt is optimized for Claude. Leverage its strength in detailed analysis and nuanced reasoning."
  else if containsSub model_lower "gemini" then
    some "Note: This prompt is optimized for Gemini. Take advantage of its multimodal capabilities and factual accuracy."
  else none

/-- Embedding of `generate_recommendations` of `src/mcp_server.py` (lines 259-278):
same conditional appends as the copy in `src/ai_validation_mcp.py`, but membership
is tested against the `apply_rules` list extracted from the config dictionary
(defaulting to the empty list). -/
def http_generate_recommendations (analysis : Analysis) (original_prompt : String)
    (apply_rules : List String) : List String :=
  (if analysis.clarity_score < 0.5 then
    ["Consider adding more specific details and context to improve clarity"] else []) ++
  (if !analysis.has_examples && analysis.needs_examples then
    ["Add concrete examples to illustrate your requirements"] else []) ++
  (if !analysis.has_constraints && decide (analysis.word_count > 20) then
    ["Define clear constraints or requirements for better results"] else []) ++
  (if analysis.needs_structure && !(apply_rules.contains "structured_output") then
    ["Enable \x27structured_output\x27 rule for better organization"] else []) ++
  (if analysis.needs_reasoning && !(apply_rules.contains "chain_of_thought") then
    ["Enable \x27chain_of_thought\x27 rule for step-by-step reasoning"] else [])

/-- Embedding of `calculate_optimization_score` of `src/mcp_server.py`
(lines 281-299); the source body is byte-identical to the copy in
`src/ai_validation_mcp.py`, so the embedding reuses the same Lean function. -/
def http_calculate_optimization_score : Analysis → List String → ℚ :=
  calculate_optimization_score

/-- Model-compatibility advisory block of `src/mcp_server.py`
(`assess_model_compatibility`, lines 302-324). -/
structure ModelCompatibility where
  score : ℚ
  notes : List String
  optimizations : List String
deriving DecidableEq

/-- Embedding of `assess_model_compatibility` (`src/mcp_server.py` lines 302-324). -/
def assess_model_compatibility (prompt : String) (model : String) : ModelCompatibility :=
  let model_lower := lowerStr model
  let prompt_length := prompt.data.length
  if containsSub model_lower "gpt" then
    if decide (prompt_length > 8000) then
      { score := 0.8 - 0.1
        notes := ["Long prompt - consider breaking into smaller chunks"]
        optimizations := ["Well-suited for creative and analytical tasks"] }
    else
      { score := 0.8, notes := []
        optimizations := ["Well-suited for creative and analytical tasks"] }
  else if containsSub model_lower "claude" then
    if decide (prompt_length > 10000) then
      { score := 0.8, notes := ["Very long prompt - Claude handles this well"]
        optimizations := ["Excellent for detailed analysis and reasoning"] }
    else
      { score := 0.8, notes := []
        optimizations := ["Excellent for detailed analysis and reasoning"] }
  else
    { score := 0.8, notes := [], optimizations := [] }

/-- Rule 1 of the HTTP engine (`src/mcp_server.py` lines 62-81): same gate and
text as `expertStep`. -/
def httpExpertStep (apply_rules : List String) (s : EngState) : EngState :=
  if apply_rules.contains "expert_system" || apply_rules.contains "auto_optimize" then
    { text := expertPrompt ++ "\n\nUser Request:\n" ++ s.text
      applied := s.applied ++ ["expert_system"] }
  else s

/-- Rule 2 of the HTTP engine (`src/mcp_server.py` lines 83-88): unlike `cotStep`,
the analysis flag alone passes the gate — no `auto_optimize` requirement. -/
def httpCotStep (apply_rules : List String) (analysis : Analysis) (s : EngState) : EngState :=
  if apply_rules.contains "chain_of_thought" || analysis.needs_reasoning then
    { text := s.text ++ cotInstruction, applied := s.applied ++ ["chain_of_thought"] }
  else s

/-- Rule 3 of the HTTP engine (`src/mcp_server.py` lines 90-96): gate without the
`auto_optimize` requirement; the lookup returns `Option String` and the Python
truthiness test `if few_shot_examples:` is `none`-vs-`some` here (the source
never returns an empty `some`). -/
def httpFewShotStep (raw_prompt : String) (apply_rules : List String) (analysis : Analysis)
    (s : EngState) : EngState :=
  if apply_rules.contains "few_shot" || analysis.needs_examples then
    match http_generate_few_shot_examples raw_prompt with
    | some few_shot_examples =>
      { text := s.text ++ "\n\nHere are some examples of excellent responses:\n\n" ++
          few_shot_examples
        applied := s.applied ++ ["few_shot"] }
    | none => s
  else s

/-- Rule 4 of the HTTP engine (`src/mcp_server.py` lines 98-104): gate without the
`auto_optimize` requirement; no-op when the role lookup returns `None`. -/
def httpRolePlayStep (raw_prompt : String) (apply_rules : List String) (analysis : Analysis)
    (s : EngState) : EngState :=
  if apply_rules.contains "role_play" || analysis.needs_expertise then
    match http_determine_expert_role raw_prompt with
    | some role_context =>
      { text := "You are " ++ role_context ++ ".\n\n" ++ s.text
        applied := s.applied ++ ["role_play"] }
    | none => s
  else s

/-- Rule 5 of the HTTP engine (`src/mcp_server.py` lines 106-128): gate without
the `auto_optimize` requirement, and the template `httpStructureTemplate` starts
with a single newline where the tool server template starts with two. -/
def httpStructuredStep (apply_rules : List String) (analysis : Analysis) (s : EngState) :
    EngState :=
  if apply_rules.contains "structured_output" || analysis.needs_structure then
    { text := s.text ++ httpStructureTemplate, applied := s.applied ++ ["structured_output"] }
  else s

/-- Rule 6 of the HTTP engine (`src/mcp_server.py` lines 130-136): explicit
request only, no-op when the model lookup returns `None`. -/
def httpModelOptimizeStep (target_model : String) (apply_rules : List String) (s : EngState) :
    EngState :=
  if apply_rules.contains "model_optimize" then
    match http_apply_model_specific_rules s.text target_model with
    | some model_optimization =>
      { text := s.text ++ "\n\n" ++ model_optimization
        applied := s.applied ++ ["model_optimize"] }
    | none => s
  else s

/-- Rule 7 of the HTTP engine (`src/mcp_server.py` lines 138-143): the clarity
test alone passes the gate — no `auto_optimize` requirement. -/
def httpClarityStep (apply_rules : List String) (analysis : Analysis) (s : EngState) : EngState :=
  if apply_rules.contains "enhance_clarity" || decide (analysis.clarity_score < 0.7) then
    { text := s.text ++ clarityInstruction, applied := s.applied ++ ["enhance_clarity"] }
  else s

/-- Rule 8 of the HTTP engine (`src/mcp_server.py` lines 145-158): explicit
request only, same as `testingStep`. -/
def httpTestingStep (apply_rules : List String) (s : EngState) : EngState :=
  if apply_rules.contains "add_testing" then
    { text := s.text ++ testingGuidance, applied := s.applied ++ ["add_testing"] }
  else s

/-- Response record built by `apply_engineering_rules` of `src/mcp_server.py`
(lines 169-180). -/
structure HttpResult where
  request_id : String
  engineered_prompt : String
  original_prompt : String
  status : String
  rules_applied : List String
  prompt_analysis : Analysis
  recommendations : List String
  optimization_score : ℚ
  model_compatibility : ModelCompatibility
deriving DecidableEq

/-- Embedding of `apply_engineering_rules` of `src/mcp_server.py` (lines 30-182),
after the `.get` extraction of `request_id` / `raw_prompt` / `config` fields
(lines 47-51, performed by `http_apply_engineering_rules_req` below). -/
def http_apply_engineering_rules (request_id : String) (raw_prompt : String)
    (apply_rules : List String) (target_model : String) : HttpResult :=
  let analysis := http_analyze_prompt_structure raw_prompt
  let s0 : EngState := { text := raw_prompt, applied := [] }
  let s1 := httpExpertStep apply_rules s0
  let s2 := httpCotStep apply_rules analysis s1
  let s3 := httpFewShotStep raw_prompt apply_rules analysis s2
  let s4 := httpRolePlayStep raw_prompt apply_rules analysis s3
  let s5 := httpStructuredStep apply_rules analysis s4
  let s6 := httpModelOptimizeStep target_model apply_rules s5
  let s7 := httpClarityStep apply_rules analysis s6
  let s8 := httpTestingStep apply_rules s7
  { request_id := request_id
    engineered_prompt := s8.text
    original_prompt := raw_prompt
    status := "validation_success"
    rules_applied := s8.applied
    prompt_analysis := analysis
    recommendations := http_generate_recommendations analysis raw_prompt apply_rules
    optimization_score := http_calculate_optimization_score analysis s8.applied
    model_compatibility := assess_model_compatibility s8.text target_model }

/-- Config sub-dictionary of an HTTP request (`src/mcp_server.py` lines 49-51);
fields are `none` when the keys are absent. -/
structure HttpConfig where
  apply_rules : Option (List String)
  model : Option String
deriving DecidableEq

/-- JSON body of a `/validate-prompt` request; fields are `none` when the keys
are absent. -/
structure HttpRequestData where
  request_id : Option String
  raw_prompt : Option String
  config : Option HttpConfig
deriving DecidableEq

/-- The `.get`-with-default extraction of `src/mcp_server.py` lines 47-51
followed by the engine body. -/
def http_apply_engineering_rules_req (request_data : HttpRequestData) : HttpResult :=
  let config := request_data.config.getD { apply_rules := none, model := none }
  http_apply_engineering_rules (request_data.request_id.getD "unknown")
    (request_data.raw_prompt.getD "") (config.apply_rules.getD [])
    (config.model.getD "general")

/-- Response of the `/validate-prompt` Flask route: HTTP 200 with the engine
result, or HTTP 400 with an error body. -/
inductive HttpEndpointResponse where
  | success (body : HttpResult)
  | badRequest (error : String)
deriving DecidableEq

/-- Embedding of the `/validate-prompt` route handler `validate_prompt`
(`src/mcp_server.py` lines 326-371): `none` stands for a missing or empty JSON
payload (both falsy in Python), a present payload without the `raw_prompt` key
is rejected with HTTP 400, and otherwise the engine runs.  The content-type and
exception paths are transport-level and outside the embedded data path. -/
def http_validate_prompt (request_data : Option HttpRequestData) : HttpEndpointResponse :=
  match request_data with
  | none => HttpEndpointResponse.badRequest "Invalid JSON payload"
  | some d =>
    if d.raw_prompt = none then
      HttpEndpointResponse.badRequest "Missing required field: raw_prompt"
    else HttpEndpointResponse.success (http_apply_engineering_rules_req d)

/-- Singleton rule-name tag appended by a pipeline step whose gate-and-effect
condition is `b`; used to state closed forms of `rules_applied`. -/
def ruleTag (b : Bool) (name : String) : List String := if b then [name] else []

/-! Helper lemmas. -/

theorem pymin_eq_min (a b : ℚ) : pymin a b = min a b := (min_def a b).symm

theorem pymaxNat_eq_max (a b : ℕ) : pymaxNat a b = max a b := by
  unfold pymaxNat
  rcases le_or_lt b a with h | h
  · rw [if_pos h, max_eq_left h]
  · rw [if_neg (not_le.mpr h), max_eq_right h.le]

/-- Closed form of `calculate_optimization_score`: the sequential conditional
additions of the source collapse to one sum, capped below 0.2 on the rule bonus
and below 1.0 overall. -/
theorem calculate_optimization_score_eq (a : Analysis) (r : List String) :
    calculate_optimization_score a r =
      min 1 ((0.3 : ℚ) + (if a.has_clear_task then (0.2 : ℚ) else 0) +
        (if a.has_context then (0.1 : ℚ) else 0) +
        (if a.has_examples then (0.1 : ℚ) else 0) +
        (if a.has_constraints then (0.1 : ℚ) else 0) +
        min 0.2 ((r.length : ℚ) * 0.04)) := by
  unfold calculate_optimization_score
  rw [pymin_eq_min, pymin_eq_min]
  generalize min (0.2 : ℚ) ((r.length : ℚ) * 0.04) = B
  cases a.has_clear_task <;> cases a.has_context <;>
    cases a.has_examples <;> cases a.has_constraints <;>
    simp only [if_true, if_false, Bool.false_eq_true, ite_true, ite_false] <;>
    first
    | rfl
    | (congr 1; ring)

/-- The rule bonus term of the score is nonnegative. -/
theorem rule_bonus_nonneg (r : List String) : (0 : ℚ) ≤ min 0.2 ((r.length : ℚ) * 0.04) :=
  le_min (by norm_num) (by positivity)

/-- Each structure bonus term of the score is nonnegative. -/
theorem ite_bonus_nonneg (b : Bool) (q : ℚ) (hq : 0 ≤ q) : (0 : ℚ) ≤ if b then q else 0 := by
  split
  · exact hq
  · exact le_refl 0

theorem apply_model_specific_rules_indep (p q model : String) :
    apply_model_specific_rules p model = apply_model_specific_rules q model := rfl

theorem http_apply_model_specific_rules_indep (p q model : String) :
    http_apply_model_specific_rules p model = http_apply_model_specific_rules q model := rfl

theorem http_analyze_eq : http_analyze_prompt_structure = analyze_prompt_structure := rfl

theorem http_calculate_eq : http_calculate_optimization_score = calculate_optimization_score := rfl

/-! Per-step closed forms of the `applied` component, tool-server engine. -/

theorem expertStep_applied (rules : List String) (s : EngState) :
    (expertStep rules s).applied = s.applied ++
      ruleTag (rules.contains "expert_system" || rules.contains "auto_optimize")
        "expert_system" := by
  unfold expertStep ruleTag
  split <;> simp_all

theorem cotStep_applied (rules : List String) (a : Analysis) (s : EngState) :
    (cotStep rules a s).applied = s.applied ++
      ruleTag (rules.contains "chain_of_thought" ||
        (a.needs_reasoning && rules.contains "auto_optimize")) "chain_of_thought" := by
  unfold cotStep ruleTag
  split <;> simp_all

theorem fewShotStep_applied (raw_prompt : String) (rules : List String) (a : Analysis)
    (s : EngState) :
    (fewShotStep raw_prompt rules a s).applied = s.applied ++
      ruleTag ((rules.contains "few_shot" ||
          (a.needs_examples && rules.contains "auto_optimize")) &&
        decide (generate_few_shot_examples raw_prompt ≠ "")) "few_shot" := by
  unfold fewShotStep ruleTag
  split
  · split <;> simp_all
  · simp_all

theorem rolePlayStep_applied (raw_prompt : String) (rules : List String) (a : Analysis)
    (s : EngState) :
    (rolePlayStep raw_prompt rules a s).applied = s.applied ++
      ruleTag ((rules.contains "role_play" ||
          (a.needs_expertise && rules.contains "auto_optimize")) &&
        decide (determine_expert_role raw_prompt ≠ "")) "role_play" := by
  unfold rolePlayStep ruleTag
  split
  · split <;> simp_all
  · simp_all

theorem structuredStep_applied (rules : List String) (a : Analysis) (s : EngState) :
    (structuredStep rules a s).applied = s.applied ++
      ruleTag (rules.contains "structured_output" ||
        (a.needs_structure && rules.contains "auto_optimize")) "structured_output" := by
  unfold structuredStep ruleTag
  split <;> simp_all

theorem modelOptimizeStep_applied (target_model : String) (rules : List String) (s : EngState) :
    (modelOptimizeStep target_model rules s).applied = s.applied ++
      ruleTag (rules.contains "model_optimize" &&
        decide (apply_model_specific_rules "" target_model ≠ "")) "model_optimize" := by
  unfold modelOptimizeStep ruleTag
  rw [apply_model_specific_rules_indep s.text ""]
  split
  · split <;> simp_all
  · simp_all

theorem clarityStep_applied (rules : List String) (a : Analysis) (s : EngState) :
    (clarityStep rules a s).applied = s.applied ++
      ruleTag (rules.contains "enhance_clarity" ||
        (decide (a.clarity_score < 0.7) && rules.contains "auto_optimize"))
        "enhance_clarity" := by
  unfold clarityStep ruleTag
  split <;> simp_all

theorem testingStep_applied (rules : List String) (s : EngState) :
    (testingStep rules s).applied = s.applied ++
      ruleTag (rules.contains "add_testing") "add_testing" := by
  unfold testingStep ruleTag
  split <;> simp_all

/-! Per-step closed forms of the `applied` component, HTTP engine. -/

theorem httpExpertStep_applied (rules : List String) (s : EngState) :
    (httpExpertStep rules s).applied = s.applied ++
      ruleTag (rules.contains "expert_system" || rules.contains "auto_optimize")
        "expert_system" := by
  unfold httpExpertStep ruleTag
  split <;> simp_all

theorem httpCotStep_applied (rules : List String) (a : Analysis) (s : EngState) :
    (httpCotStep rules a s).applied = s.applied ++
      ruleTag (rules.contains "chain_of_thought" || a.needs_reasoning)
        "chain_of_thought" := by
  unfold httpCotStep ruleTag
  split <;> simp_all

theorem httpFewShotStep_applied (raw_prompt : String) (rules : List String) (a : Analysis)
    (s : EngState) :
    (httpFewShotStep raw_prompt rules a s).applied = s.applied ++
      ruleTag ((rules.contains "few_shot" || a.needs_examples) &&
        (http_generate_few_shot_examples raw_prompt).isSome) "few_shot" := by
  unfold httpFewShotStep ruleTag
  split
  · split <;> simp_all
  · simp_all

theorem httpRolePlayStep_applied (raw_prompt : String) (rules : List String) (a : Analysis)
    (s : EngState) :
    (httpRolePlayStep raw_prompt rules a s).applied = s.applied ++
      ruleTag ((rules.contains "role_play" || a.needs_expertise) &&
        (http_determine_expert_role raw_prompt).isSome) "role_play" := by
  unfold httpRolePlayStep ruleTag
  split
  · split <;> simp_all
  · simp_all

theorem httpStructuredStep_applied (rules : List String) (a : Analysis) (s : EngState) :
    (httpStructuredStep rules a s).applied = s.applied ++
      ruleTag (rules.contains "structured_output" || a.needs_structure)
        "structured_output" := by
  unfold httpStructuredStep ruleTag
  split <;> simp_all

theorem httpModelOptimizeStep_applied (target_model : String) (rules : List String)
    (s : EngState) :
    (httpModelOptimizeStep target_model rules s).applied = s.applied ++
      ruleTag (rules.contains "model_optimize" &&
        (http_apply_model_specific_rules "" target_model).isSome) "model_optimize" := by
  unfold httpModelOptimizeStep ruleTag
  rw [http_apply_model_specific_rules_indep s.text ""]
  split
  · split <;> simp_all
  · simp_all

theorem httpClarityStep_applied (rules : List String) (a : Analysis) (s : EngState) :
    (httpClarityStep rules a s).applied = s.applied ++
      ruleTag (rules.contains "enhance_clarity" || decide (a.clarity_score < 0.7))
        "enhance_clarity" := by
  unfold httpClarityStep ruleTag
  split <;> simp_all

theorem httpTestingStep_applied (rules : List String) (s : EngState) :
    (httpTestingStep rules s).applied = s.applied ++
      ruleTag (rules.contains "add_testing") "add_testing" := by
  unfold httpTestingStep ruleTag
  split <;> simp_all

/-- Closed form of `rules_applied` for the tool-server engine: one conditional
tag per rule, in application order. -/
theorem apply_engineering_rules_rules_applied (p : String) (rules : List String) (m : String) :
    (apply_engineering_rules p rules m).rules_applied =
      ruleTag (rules.contains "expert_system" || rules.contains "auto_optimize")
        "expert_system" ++
      ruleTag (rules.contains "chain_of_thought" ||
        ((analyze_prompt_structure p).needs_reasoning && rules.contains "auto_optimize"))
        "chain_of_thought" ++
      ruleTag ((rules.contains "few_shot" ||
          ((analyze_prompt_structure p).needs_examples && rules.contains "auto_optimize")) &&
        decide (generate_few_shot_examples p ≠ "")) "few_shot" ++
      ruleTag ((rules.contains "role_play" ||
          ((analyze_prompt_structure p).needs_expertise && rules.contains "auto_optimize")) &&
        decide (determine_expert_role p ≠ "")) "role_play" ++
      ruleTag (rules.contains "structured_output" ||
        ((analyze_prompt_structure p).needs_structure && rules.contains "auto_optimize"))
        "structured_output" ++
      ruleTag (rules.contains "model_optimize" &&
        decide (apply_model_specific_rules "" m ≠ "")) "model_optimize" ++
      ruleTag (rules.contains "enhance_clarity" ||
        (decide ((analyze_prompt_structure p).clarity_score < 0.7) &&
          rules.contains "auto_optimize")) "enhance_clarity" ++
      ruleTag (rules.contains "add_testing") "add_testing" := by
  unfold apply_engineering_rules
  simp only [testingStep_applied, clarityStep_applied, modelOptimizeStep_applied,
    structuredStep_applied, rolePlayStep_applied, fewShotStep_applied, cotStep_applied,
    expertStep_applied, List.nil_append, List.append_assoc]

/-- Closed form of `rules_applied` for the HTTP engine: same order, but the
analysis flags pass each gate without any `auto_optimize` requirement. -/
theorem http_apply_engineering_rules_rules_applied (rid p : String) (rules : List String)
    (m : String) :
    (http_apply_engineering_rules rid p rules m).rules_applied =
      ruleTag (rules.contains "expert_system" || rules.contains "auto_optimize")
        "expert_system" ++
      ruleTag (rules.contains "chain_of_thought" ||
        (analyze_prompt_structure p).needs_reasoning) "chain_of_thought" ++
      ruleTag ((rules.contains "few_shot" || (analyze_prompt_structure p).needs_examples) &&
        (http_generate_few_shot_examples p).isSome) "few_shot" ++
      ruleTag ((rules.contains "role_play" || (analyze_prompt_structure p).needs_expertise) &&
        (http_determine_expert_role p).isSome) "role_play" ++
      ruleTag (rules.contains "structured_output" ||
        (analyze_prompt_structure p).needs_structure) "structured_output" ++
      ruleTag (rules.contains "model_optimize" &&
        (http_apply_model_specific_rules "" m).isSome) "model_optimize" ++
      ruleTag (rules.contains "enhance_clarity" ||
        decide ((analyze_prompt_structure p).clarity_score < 0.7)) "enhance_clarity" ++
      ruleTag (rules.contains "add_testing") "add_testing" := by
  unfold http_apply_engineering_rules
  simp only [http_analyze_eq, httpTestingStep_applied, httpClarityStep_applied,
    httpModelOptimizeStep_applied, httpStructuredStep_applied, httpRolePlayStep_applied,
    httpFewShotStep_applied, httpCotStep_applied, httpExpertStep_applied,
    List.nil_append, List.append_assoc]

/-- The two few-shot lookups agree: the HTTP lookup is defined iff the
tool-server lookup is a non-empty string. -/
theorem http_few_shot_isSome (p : String) :
    (http_generate_few_shot_examples p).isSome =
      decide (generate_few_shot_examples p ≠ "") := by
  unfold http_generate_few_shot_examples generate_few_shot_examples
  by_cases hA : (containsSub (lowerStr p) "code" ||
      containsSub (lowerStr p) "programming") = true
  · rw [if_pos hA, if_pos hA]
    decide
  · rw [if_neg hA, if_neg hA]
    by_cases hB : (containsSub (lowerStr p) "write" ||
        containsSub (lowerStr p) "content") = true
    · rw [if_pos hB, if_pos hB]
      decide
    · rw [if_neg hB, if_neg hB]
      decide

/-- The two expert-role lookups agree: the HTTP lookup is defined iff the
tool-server lookup is a non-empty string. -/
theorem http_role_isSome (p : String) :
    (http_determine_expert_role p).isSome =
      decide (determine_expert_role p ≠ "") := by
  unfold http_determine_expert_role determine_expert_role
  by_cases h1 : (["code", "programming", "software", "debug"].any
      (fun w => containsSub (lowerStr p) w)) = true
  · rw [if_pos h1, if_pos h1]
    decide
  · rw [if_neg h1, if_neg h1]
    by_cases h2 : (["write", "content", "marketing", "copy"].any
        (fun w => containsSub (lowerStr p) w)) = true
    · rw [if_pos h2, if_pos h2]
      decide
    · rw [if_neg h2, if_neg h2]
      by_cases h3 : (["analyze", "data", "research"].any
          (fun w => containsSub (lowerStr p) w)) = true
      · rw [if_pos h3, if_pos h3]
        decide
      · rw [if_neg h3, if_neg h3]
        by_cases h4 : (["design", "ui", "ux", "interface"].any
            (fun w => containsSub (lowerStr p) w)) = true
        · rw [if_pos h4, if_pos h4]
          decide
        · rw [if_neg h4, if_neg h4]
          by_cases h5 : (["business", "strategy", "plan"].any
              (fun w => containsSub (lowerStr p) w)) = true
          · rw [if_pos h5, if_pos h5]
            decide
          · rw [if_neg h5, if_neg h5]
            decide

/-- The two model-note lookups agree: the HTTP lookup is defined iff the
tool-server lookup is a non-empty string. -/
theorem http_model_isSome (m : String) :
    (http_apply_model_specific_rules "" m).isSome =
      decide (apply_model_specific_rules "" m ≠ "") := by
  unfold http_apply_model_specific_rules apply_model_specific_rules
  by_cases h1 : containsSub (lowerStr m) "gpt" = true
  · rw [if_pos h1, if_pos h1]
    decide
  · rw [if_neg h1, if_neg h1]
    by_cases h2 : containsSub (lowerStr m) "claude" = true
    · rw [if_pos h2, if_pos h2]
      decide
    · rw [if_neg h2, if_neg h2]
      by_cases h3 : containsSub (lowerStr m) "gemini" = true
      · rw [if_pos h3, if_pos h3]
        decide
      · rw [if_neg h3, if_neg h3]
        decide

/-! Theorems for the claims. -/

/-- Claim C4: for every analysis record and every `rules_applied` list, the
optimization score equals
`min(1.0, 0.3 + 0.2·[has_clear_task] + 0.1·[has_context] + 0.1·[has_examples]
+ 0.1·[has_constraints] + min(0.2, 0.04·length(rules_applied)))`, and this
value always lies in the interval [0.3, 1.0]. -/
theorem calculate_optimization_score_closed_form_and_bounds (a : Analysis) (r : List String) :
    calculate_optimization_score a r =
      min 1 ((0.3 : ℚ) + (if a.has_clear_task then (0.2 : ℚ) else 0) +
        (if a.has_context then (0.1 : ℚ) else 0) +
        (if a.has_examples then (0.1 : ℚ) else 0) +
        (if a.has_constraints then (0.1 : ℚ) else 0) +
        min 0.2 ((r.length : ℚ) * 0.04)) ∧
    (0.3 : ℚ) ≤ calculate_optimization_score a r ∧ calculate_optimization_score a r ≤ 1 := by
  refine ⟨calculate_optimization_score_eq a r, ?_, ?_⟩
  · rw [calculate_optimization_score_eq a r]
    have h1 : (0 : ℚ) ≤ if a.has_clear_task then (0.2 : ℚ) else 0 :=
      ite_bonus_nonneg _ _ (by norm_num)
    have h2 : (0 : ℚ) ≤ if a.has_context then (0.1 : ℚ) else 0 :=
      ite_bonus_nonneg _ _ (by norm_num)
    have h3 : (0 : ℚ) ≤ if a.has_examples then (0.1 : ℚ) else 0 :=
      ite_bonus_nonneg _ _ (by norm_num)
    have h4 : (0 : ℚ) ≤ if a.has_constraints then (0.1 : ℚ) else 0 :=
      ite_bonus_nonneg _ _ (by norm_num)
    have h5 := rule_bonus_nonneg r
    exact le_min (by norm_num) (by linarith)
  · rw [calculate_optimization_score_eq a r]
    exact min_le_left _ _

/-- Claim C7: for a fixed analysis record the optimization score is monotonically
non-decreasing in the number of rules applied. -/
theorem calculate_optimization_score_monotone (a : Analysis) (r1 r2 : List String)
    (h : r1.length ≤ r2.length) :
    calculate_optimization_score a r1 ≤ calculate_optimization_score a r2 := by
  rw [calculate_optimization_score_eq a r1, calculate_optimization_score_eq a r2]
  have hb : ((r1.length : ℚ)) * 0.04 ≤ ((r2.length : ℚ)) * 0.04 := by
    have : ((r1.length : ℚ)) ≤ ((r2.length : ℚ)) := by exact_mod_cast h
    nlinarith
  exact min_le_min le_rfl (by gcongr)

/-- Witness for claim C7 at a concrete input: the empty prompt analysis, an empty
rule list and a one-element rule list. -/
theorem calculate_optimization_score_monotone_witness :
    ([] : List String).length ≤ ["expert_system"].length ∧
    calculate_optimization_score (analyze_prompt_structure "") [] ≤
      calculate_optimization_score (analyze_prompt_structure "") ["expert_system"] :=
  ⟨by decide,
   calculate_optimization_score_monotone (analyze_prompt_structure "") [] ["expert_system"]
     (by decide)⟩

set_option maxRecDepth 8000 in
/-- Counterexample to claim C2 as stated: the two engines are not equivalent.
Without `auto_optimize`, the HTTP engine applies analysis-triggered rules that
the tool-server engine does not (prompt "how", empty rule list); and even with
`auto_optimize`, their structured-output templates differ by one newline, so
the engineered prompts differ (prompt "a? b? c?"). -/
theorem engines_equivalence_counterexample :
    (apply_engineering_rules "how" [] "general").rules_applied ≠
      (http_apply_engineering_rules "unknown" "how" [] "general").rules_applied ∧
    (apply_engineering_rules "a? b? c?" ["auto_optimize"] "general").engineered_prompt ≠
      (http_apply_engineering_rules "unknown" "a? b? c?" ["auto_optimize"]
        "general").engineered_prompt := by
  with_unfolding_all decide

/-- Claim C2 as amended: whenever `auto_optimize` is among the requested rules,
the two engines compute the same `rules_applied` sequence for every identical
(prompt, rule list, target model) triple and every request id.  (The
engineered prompts can still differ, and without `auto_optimize` even the
applied-rule sequences can differ — see the counterexample.) -/
theorem engines_agree_on_rules_applied (request_id raw_prompt target_model : String)
    (rules : List String) (h : rules.contains "auto_optimize" = true) :
    (apply_engineering_rules raw_prompt rules target_model).rules_applied =
      (http_apply_engineering_rules request_id raw_prompt rules target_model).rules_applied := by
  rw [apply_engineering_rules_rules_applied, http_apply_engineering_rules_rules_applied,
    http_few_shot_isSome, http_role_isSome, http_model_isSome]
  have hm : "auto_optimize" ∈ rules := by simpa using h
  simp [hm]

/-- Witness for claim C2 as amended, at the default rule list. -/
theorem engines_agree_on_rules_applied_witness :
    (["auto_optimize"] : List String).contains "auto_optimize" = true ∧
    (apply_engineering_rules "hi" ["auto_optimize"] "general").rules_applied =
      (http_apply_engineering_rules "unknown" "hi" ["auto_optimize"]
        "general").rules_applied :=
  ⟨by decide,
   engines_agree_on_rules_applied "unknown" "hi" "general" ["auto_optimize"] (by decide)⟩

/-- Claim C6: for every prompt the clarity score lies in [0, 1], and for the
empty prompt it is exactly 0. -/
theorem clarity_score_bounds :
    (∀ prompt : String, 0 ≤ (analyze_prompt_structure prompt).clarity_score ∧
      (analyze_prompt_structure prompt).clarity_score ≤ 1) ∧
    (analyze_prompt_structure "").clarity_score = 0 := by
  constructor
  · intro prompt
    show 0 ≤ pymin 1 _ ∧ pymin 1 _ ≤ 1
    rw [pymin_eq_min]
    constructor
    · exact le_min (by norm_num) (by positivity)
    · exact min_le_left _ _
  · with_unfolding_all decide

/-- Claim C9: `needs_examples` is true iff the prompt contains at least one
question mark and has fewer than 20 whitespace-delimited words; at the boundary,
19 words with one question mark give `true` and 20 words with one question mark
give `false`. -/
theorem needs_examples_iff :
    (∀ prompt : String, (analyze_prompt_structure prompt).needs_examples = true ↔
      0 < (analyze_prompt_structure prompt).question_count ∧
        (analyze_prompt_structure prompt).word_count < 20) ∧
    (analyze_prompt_structure
      "w w w w w w w w w w w w w w w w w w w?").needs_examples = true ∧
    (analyze_prompt_structure
      "w w w w w w w w w w w w w w w w w w w w?").needs_examples = false := by
  refine ⟨?_, by decide, by decide⟩
  intro prompt
  show (decide _ && decide _) = true ↔ _
  simp [Bool.and_eq_true, decide_eq_true_iff]
  exact Iff.rfl

/-- Claim C8: for the prompt "How do I implement a binary search?" with the
default rule list and the general model, the analysis has `needs_reasoning`,
`needs_examples` and not `has_clear_task`, and neither `role_play` nor
`few_shot` is recorded in `rules_applied` (the `few_shot` gate passes but the
domain lookup is empty; the `role_play` gate itself fails). -/
theorem binary_search_scenario :
    (apply_engineering_rules "How do I implement a binary search?" ["auto_optimize"]
        "general").analysis.needs_reasoning = true ∧
    (apply_engineering_rules "How do I implement a binary search?" ["auto_optimize"]
        "general").analysis.needs_examples = true ∧
    (apply_engineering_rules "How do I implement a binary search?" ["auto_optimize"]
        "general").analysis.has_clear_task = false ∧
    "role_play" ∉ (apply_engineering_rules "How do I implement a binary search?"
        ["auto_optimize"] "general").rules_applied ∧
    "few_shot" ∉ (apply_engineering_rules "How do I implement a binary search?"
        ["auto_optimize"] "general").rules_applied := by
  with_unfolding_all decide

/-- Claim C10: at the `validate_prompt` tool boundary (`handle_call_tool`), a
missing argument dictionary, a missing `prompt` key, or an empty `prompt`
string short-circuits to the error outcome `"Error: No prompt provided"`; the
error outcome carries no engine result, so `apply_engineering_rules` is never
invoked for such input. -/
theorem validate_prompt_missing_prompt_errors :
    handle_call_tool "validate_prompt" none =
      ToolOutcome.errorText "Error: No prompt provided" ∧
    ∀ args : ToolArgs, args.prompt.getD "" = "" →
      handle_call_tool "validate_prompt" (some args) =
        ToolOutcome.errorText "Error: No prompt provided" := by
  constructor
  · rfl
  · intro args h
    unfold handle_call_tool
    simp [h]

/-- Witness for claim C10: the second conjunct applied to an argument dictionary
that carries an explicitly empty prompt. -/
theorem validate_prompt_missing_prompt_errors_witness :
    handle_call_tool "validate_prompt"
      (some { prompt := some "", rules := some ["auto_optimize"],
              model := some "general", focus_area := none }) =
      ToolOutcome.errorText "Error: No prompt provided" :=
  validate_prompt_missing_prompt_errors.2
    { prompt := some "", rules := some ["auto_optimize"],
      model := some "general", focus_area := none } (by decide)

/-- Claim C5: a gated transformation whose lookup finds no match is a complete
no-op — it appends no rule name and leaves the accumulating text unchanged.
Stated for the three lookup-bearing steps of `apply_engineering_rules`:
`few_shot` (empty few-shot lookup), `role_play` (empty role lookup) and
`model_optimize` (no model match). -/
theorem unmatched_lookup_steps_are_noops :
    (∀ (raw_prompt : String) (rules : List String) (analysis : Analysis) (s : EngState),
      (rules.contains "few_shot" = true ∨
        (analysis.needs_examples && rules.contains "auto_optimize") = true) →
      generate_few_shot_examples raw_prompt = "" →
      fewShotStep raw_prompt rules analysis s = s) ∧
    (∀ (raw_prompt : String) (rules : List String) (analysis : Analysis) (s : EngState),
      (rules.contains "role_play" = true ∨
        (analysis.needs_expertise && rules.contains "auto_optimize") = true) →
      determine_expert_role raw_prompt = "" →
      rolePlayStep raw_prompt rules analysis s = s) ∧
    (∀ (target_model : String) (rules : List String) (s : EngState),
      rules.contains "model_optimize" = true →
      apply_model_specific_rules s.text target_model = "" →
      modelOptimizeStep target_model rules s = s) := by
  refine ⟨?_, ?_, ?_⟩
  · intro raw_prompt rules analysis s _ hlook
    unfold fewShotStep
    simp [hlook]
  · intro raw_prompt rules analysis s _ hlook
    unfold rolePlayStep
    simp [hlook]
  · intro target_model rules s _ hlook
    unfold modelOptimizeStep
    simp [hlook]

/-- Witness for claim C5: each conjunct at a concrete input whose gate passes by
explicit request while the lookup is empty ("hello" matches no few-shot domain
and no role domain; "general" matches no model). -/
theorem unmatched_lookup_steps_are_noops_witness :
    fewShotStep "hello" ["few_shot"] (analyze_prompt_structure "hello")
        { text := "hello", applied := [] } = { text := "hello", applied := [] } ∧
    rolePlayStep "hello" ["role_play"] (analyze_prompt_structure "hello")
        { text := "hello", applied := [] } = { text := "hello", applied := [] } ∧
    modelOptimizeStep "general" ["model_optimize"]
        { text := "hello", applied := [] } = { text := "hello", applied := [] } :=
  ⟨unmatched_lookup_steps_are_noops.1 "hello" ["few_shot"]
      (analyze_prompt_structure "hello") { text := "hello", applied := [] }
      (Or.inl (by decide)) (by decide),
   unmatched_lookup_steps_are_noops.2.1 "hello" ["role_play"]
      (analyze_prompt_structure "hello") { text := "hello", applied := [] }
      (Or.inl (by decide)) (by decide),
   unmatched_lookup_steps_are_noops.2.2 "general" ["model_optimize"]
      { text := "hello", applied := [] } (by decide) (by decide)⟩

/-- Counterexample to claim C1 as stated: the claim names
`apply_engineering_rules` of both servers, but the HTTP engine
(`src/mcp_server.py`) is not a pass-through on an empty rule list — on the
empty prompt with no rules requested it still applies `enhance_clarity`
(clarity 0 < 0.7 passes the gate without any `auto_optimize` requirement). -/
theorem empty_rules_passthrough_counterexample :
    ¬((http_apply_engineering_rules "unknown" "" [] "general").rules_applied = [] ∧
      (http_apply_engineering_rules "unknown" "" [] "general").engineered_prompt = "") := by
  with_unfolding_all decide

/-- Claim C1 as amended: for the MCP tool-server engine
(`apply_engineering_rules` in `src/ai_validation_mcp.py`), an empty requested
rule list yields an empty `rules_applied` and an engineered prompt identical to
the input, for every prompt and every target model. -/
theorem empty_rules_passthrough (raw_prompt target_model : String) :
    (apply_engineering_rules raw_prompt [] target_model).rules_applied = [] ∧
    (apply_engineering_rules raw_prompt [] target_model).engineered_prompt = raw_prompt := by
  unfold apply_engineering_rules
  unfold expertStep cotStep fewShotStep rolePlayStep structuredStep modelOptimizeStep
    clarityStep testingStep
  simp

/-- Counterexample to claim C3 as stated: on the empty prompt with the default
`["auto_optimize"]` rules, `expert_system` is not the only applied rule and the
score is not 0.3 (the `enhance_clarity` gate also passes, since clarity 0 < 0.7). -/
theorem empty_prompt_scenario_counterexample :
    (apply_engineering_rules "" ["auto_optimize"] "general").rules_applied ≠
      ["expert_system"] ∧
    (apply_engineering_rules "" ["auto_optimize"] "general").optimization_score ≠ 0.3 := by
  with_unfolding_all decide

/-- Claim C3 as amended: for the empty prompt with rules `["auto_optimize"]`
and model "general", the analysis has `word_count = 0`, `clarity_score = 0` and
all four `needs_*` flags false; the applied rules are exactly
`expert_system` followed by `enhance_clarity` (clarity 0 < 0.7 also passes the
`enhance_clarity` gate under `auto_optimize`), and the final score is
0.3 + 2·0.04 = 0.38. -/
theorem empty_prompt_scenario :
    (apply_engineering_rules "" ["auto_optimize"] "general").analysis.word_count = 0 ∧
    (apply_engineering_rules "" ["auto_optimize"] "general").analysis.clarity_score = 0 ∧
    (apply_engineering_rules "" ["auto_optimize"] "general").analysis.needs_reasoning = false ∧
    (apply_engineering_rules "" ["auto_optimize"] "general").analysis.needs_examples = false ∧
    (apply_engineering_rules "" ["auto_optimize"] "general").analysis.needs_expertise = false ∧
    (apply_engineering_rules "" ["auto_optimize"] "general").analysis.needs_structure = false ∧
    (apply_engineering_rules "" ["auto_optimize"] "general").rules_applied =
      ["expert_system", "enhance_clarity"] ∧
    (apply_engineering_rules "" ["auto_optimize"] "general").optimization_score = 0.38 := by
  with_unfolding_all decide
